import Mathlib

/-!
Shallow embedding of the task-tracking MCP tool set of `src/main.py`
(`get_tasks`, `create_task`, `update_task`), which manipulates a Google
Sheet through `sheet.get_all_records`, `sheet.append_row` and
`sheet.update_cell`.

The sheet holds a fixed header row (`task`, `due_date`, `status`) at row 1
and one task per data row from row 2 on; we model the store as the list of
data rows, so sheet row index `r` corresponds to list position `r - 2`.
Row indices and column indices are 1-based as in the gspread API
(column 1 = task, 2 = due_date, 3 = status).

Date validation embeds `datetime.strptime(due_date, "%Y-%m-%d")` from
CPython: the compiled pattern is `(\d\d\d\d)-(1[0-2]|0[1-9]|[1-9])-`
`(3[01]|[12]\d|0[1-9]|[1-9])`, anchored on both sides (strptime rejects
unconverted trailing data), followed by construction of a `datetime`,
which additionally requires `1 <= year` and `day` at most the length of
the month (with Gregorian leap years).  Digits are modelled as ASCII
`0`-`9`.  Note the pattern accepts single-digit months and days such as
`"2025-6-5"`, which are not in the zero-padded `YYYY-MM-DD` shape.
-/

/-- One data row of the sheet: the three columns `task`, `due_date`,
`status`, as returned by `sheet.get_all_records()`. -/
structure Row where
  task : String
  due_date : String
  status : String
  deriving Repr, DecidableEq

/-- The store: the ordered data rows of the sheet (sheet rows 2, 3, ...). -/
abbrev Store := List Row

/-- Embeds `sheet.get_all_records()`: the data rows in store order. -/
def get_all_records (s : Store) : List Row := s

/-- Embeds `sheet.append_row([task, due_date, status])`: appends one row
at the end of the sheet. -/
def append_row (s : Store) (r : Row) : Store := s ++ [r]

/-- Writing column `col` (1-based) of a single row. -/
def setCol (r : Row) (col : Nat) (v : String) : Row :=
  if col = 1 then { r with task := v }
  else if col = 2 then { r with due_date := v }
  else if col = 3 then { r with status := v }
  else r

/-- Embeds `sheet.update_cell(rowIdx, col, v)`: overwrites exactly one cell.
`rowIdx` is the 1-based sheet row (row 1 is the header), so the data row
at list position `rowIdx - 2` is written; the service only ever calls it
with indices of existing data rows. -/
def update_cell (s : Store) (rowIdx col : Nat) (v : String) : Store :=
  match s[rowIdx - 2]? with
  | none => s
  | some r => s.set (rowIdx - 2) (setCol r col v)

/-- ASCII digit, as matched by the strptime pattern on ASCII input. -/
def isAsciiDigit (c : Char) : Bool := '0' ≤ c && c ≤ '9'

/-- Splitting a character list at every dash, as the literal dashes of the
format string `"%Y-%m-%d"` split the matched input into the three numeric
fields.  Mirrors `String.splitOn "-"`: always returns at least one piece,
and `n` dashes yield `n + 1` pieces. -/
def splitDash : List Char → List (List Char)
  | [] => [[]]
  | c :: rest =>
    if c = '-' then [] :: splitDash rest
    else
      match splitDash rest with
      | [] => [[c]]
      | h :: tl => (c :: h) :: tl

/-- Numeric value of a digit string (`int()` on the matched group). -/
def digitsVal (l : List Char) : Nat :=
  l.foldl (fun n c => n * 10 + (c.toNat - 48)) 0

/-- A nonempty all-digit field. -/
def allDigits (l : List Char) : Bool := !l.isEmpty && l.all isAsciiDigit

/-- Gregorian leap year, as in `calendar`/`datetime`. -/
def isLeap (y : Nat) : Bool := y % 4 == 0 && (y % 100 != 0 || y % 400 == 0)

/-- Days in month `m` of year `y`, as in `datetime`. -/
def daysInMonth (y m : Nat) : Nat :=
  if m = 2 then (if isLeap y then 29 else 28)
  else if m = 4 ∨ m = 6 ∨ m = 9 ∨ m = 11 then 30
  else 31

/-- Holds when `datetime.strptime(s, "%Y-%m-%d")` succeeds: the string is exactly a
4-digit year, a dash, a 1-2 digit month in 1..12, a dash, and a 1-2 digit
day that exists in that month, with the year at least 1 (year 0000 makes
`datetime` raise).  The 4 digits bound the year by 9999, the `datetime`
maximum. -/
def strptimeYMD (s : String) : Bool :=
  match splitDash s.toList with
  | [ys, ms, ds] =>
    allDigits ys && ys.length == 4 &&
    allDigits ms && decide (ms.length ≤ 2) &&
    allDigits ds && decide (ds.length ≤ 2) &&
    decide (1 ≤ digitsVal ys) &&
    decide (1 ≤ digitsVal ms) && decide (digitsVal ms ≤ 12) &&
    decide (1 ≤ digitsVal ds) &&
    decide (digitsVal ds ≤ daysInMonth (digitsVal ys) (digitsVal ms))
  | _ => false

/-- Python truthiness of an optional string argument declared
`arg: str = None`: `None` and `""` are falsy, every other string truthy. -/
def truthy : Option String → Bool
  | none => false
  | some s => !s.isEmpty

/-- The literal date-format error string of `create_task`/`update_task`. -/
def dateFormatError : String := "Error: due_date must be in YYYY-MM-DD format."

/-- The not-found message of `update_task`. -/
def notFoundMsg (task : String) : String :=
  "Task '" ++ task ++ "' not found."

/-- The success message of `update_task`. -/
def updatedMsg (task : String) : String :=
  "Task '" ++ task ++ "' updated successfully."

/-- The success message of `create_task`. -/
def addedMsg (task due_date status : String) : String :=
  "Task '" ++ task ++ "' added successfully with due date " ++ due_date ++
    " and status '" ++ status ++ "'."

/-- Embeds `get_tasks()`: returns `sheet.get_all_records()`; reads only. -/
def get_tasks (s : Store) : List Row := get_all_records s

/-- Embeds `create_task(task, due_date, status="pending")`: validates the date,
then appends `[task, due_date, status]`; returns the message together with
the resulting store. -/
def create_task (task due_date status : String) (s : Store) :
    String × Store :=
  if strptimeYMD due_date then
    (addedMsg task due_date status, append_row s ⟨task, due_date, status⟩)
  else
    (dateFormatError, s)

/-- The loop of `update_task`: `for idx, record in enumerate(records,
start=2)`, scanning the snapshot `records` while writing to the sheet.
`idx` is the 1-based sheet row of `record` (starting at 2 past the
header). -/
def updateTaskGo (task : String) (due_date status : Option String)
    (sheet : Store) : Nat → List Row → String × Store
  | _, [] => (notFoundMsg task, sheet)
  | idx, record :: rest =>
    if record.task == task then
      if truthy due_date then
        if strptimeYMD (due_date.getD "") then
          let s1 := update_cell sheet idx 2 (due_date.getD "")
          let s2 := if truthy status then update_cell s1 idx 3 (status.getD "")
            else s1
          (updatedMsg task, s2)
        else
          (dateFormatError, sheet)
      else
        let s2 := if truthy status then update_cell sheet idx 3 (status.getD "")
          else sheet
        (updatedMsg task, s2)
    else
      updateTaskGo task due_date status sheet (idx + 1) rest

/-- Embeds `update_task(task, due_date=None, status=None)`: re-reads all records
and scans them in store order from sheet row 2. -/
def update_task (task : String) (due_date status : Option String)
    (s : Store) : String × Store :=
  updateTaskGo task due_date status s 2 (get_all_records s)

/-- Position (0-based, within the data rows) of the first row whose `task`
column equals the given description; `none` when no row matches. -/
def firstMatch (task : String) : List Row → Option Nat
  | [] => none
  | r :: rest =>
    if r.task == task then some 0
    else (firstMatch task rest).map (· + 1)

/-- Modelled from the spec: a string in the zero-padded `YYYY-MM-DD`
shape named by the spec — exactly ten characters, positions 1-4 and 6-7
and 9-10 ASCII digits, dashes at positions 5 and 8 — whose fields form a
real calendar date.  Used only to compare the spec wording of claim C1
with the validation the code performs. -/
def specFormatYYYYMMDD (s : String) : Bool :=
  match s.toList with
  | [y1, y2, y3, y4, h1, m1, m2, h2, d1, d2] =>
    isAsciiDigit y1 && isAsciiDigit y2 && isAsciiDigit y3 && isAsciiDigit y4 &&
    h1 = '-' && h2 = '-' &&
    isAsciiDigit m1 && isAsciiDigit m2 && isAsciiDigit d1 && isAsciiDigit d2 &&
    (let y := digitsVal [y1, y2, y3, y4]
     let m := digitsVal [m1, m2]
     let d := digitsVal [d1, d2]
     decide (1 ≤ y) && decide (1 ≤ m) && decide (m ≤ 12) &&
     decide (1 ≤ d) && decide (d ≤ daysInMonth y m))
  | _ => false

/-- The effect of `update_task` once the scan has found its first match at
sheet row `idx`: exactly the matched branch of the loop body, with the
sheet threaded through the conditional writes. -/
def applyMatch (task : String) (due_date status : Option String)
    (sheet : Store) (idx : Nat) : String × Store :=
  if truthy due_date then
    if strptimeYMD (due_date.getD "") then
      let s1 := update_cell sheet idx 2 (due_date.getD "")
      let s2 := if truthy status then update_cell s1 idx 3 (status.getD "")
        else s1
      (updatedMsg task, s2)
    else
      (dateFormatError, sheet)
  else
    let s2 := if truthy status then update_cell sheet idx 3 (status.getD "")
      else sheet
    (updatedMsg task, s2)


/-! ### Helper lemmas about the store adapter and the scan -/

theorem update_cell_length (s : Store) (ri c : Nat) (v : String) :
    (update_cell s ri c v).length = s.length := by
  unfold update_cell
  cases h : s[ri - 2]? with
  | none => rfl
  | some r => simp

theorem update_cell_getElem_ne (s : Store) (ri c : Nat) (v : String)
    (j : Nat) (hj : j ≠ ri - 2) :
    (update_cell s ri c v)[j]? = s[j]? := by
  unfold update_cell
  cases h : s[ri - 2]? with
  | none => rfl
  | some r => exact List.getElem?_set_ne fun he => hj he.symm

theorem update_cell_getElem_self (s : Store) (ri c : Nat) (v : String) :
    (update_cell s ri c v)[ri - 2]? =
      (s[ri - 2]?).map (fun r => setCol r c v) := by
  unfold update_cell
  cases h : s[ri - 2]? with
  | none => simp [h]
  | some r =>
    have hlt : ri - 2 < s.length := by
      by_contra hge
      rw [List.getElem?_eq_none (Nat.le_of_not_lt hge)] at h
      exact Option.noConfusion h
    simp [h, List.getElem?_set_self hlt]

theorem firstMatch_none_iff (t : String) (l : List Row) :
    firstMatch t l = none ↔ ∀ r ∈ l, r.task ≠ t := by
  induction l with
  | nil => simp [firstMatch]
  | cons r rest ih =>
    by_cases h : r.task = t
    · simp [firstMatch, h]
    · simp [firstMatch, h, ih]

theorem firstMatch_isSome (t : String) (l : List Row)
    (h : ∃ r ∈ l, r.task = t) : ∃ i, firstMatch t l = some i := by
  cases hfm : firstMatch t l with
  | none =>
    obtain ⟨r, hr, hrt⟩ := h
    exact absurd hrt ((firstMatch_none_iff t l).mp hfm r hr)
  | some i => exact ⟨i, rfl⟩

theorem firstMatch_spec (t : String) :
    ∀ (l : List Row) (i : Nat), firstMatch t l = some i →
      (∃ r, l[i]? = some r ∧ r.task = t) ∧
      ∀ j, j < i → ∀ r, l[j]? = some r → r.task ≠ t := by
  intro l
  induction l with
  | nil => intro i h; exact absurd h (by simp [firstMatch])
  | cons hd rest ih =>
    intro i h
    by_cases hhd : hd.task = t
    · simp [firstMatch, hhd] at h
      subst h
      refine ⟨⟨hd, by simp, hhd⟩, ?_⟩
      intro j hj
      exact absurd hj (Nat.not_lt_zero j)
    · simp [firstMatch, hhd] at h
      obtain ⟨k, hk, rfl⟩ := h
      obtain ⟨⟨r, hr, hrt⟩, hmin⟩ := ih k hk
      refine ⟨⟨r, by simpa using hr, hrt⟩, ?_⟩
      intro j hj r' hr'
      cases j with
      | zero =>
        simp at hr'
        subst hr'
        exact hhd
      | succ j' =>
        exact hmin j' (Nat.lt_of_succ_lt_succ hj) r' (by simpa using hr')

theorem updateTaskGo_notFound (t : String) (dd st : Option String)
    (sheet : Store) :
    ∀ (l : List Row) (idx : Nat), firstMatch t l = none →
      updateTaskGo t dd st sheet idx l = (notFoundMsg t, sheet) := by
  intro l
  induction l with
  | nil => intro idx _; rfl
  | cons r rest ih =>
    intro idx hfm
    by_cases h : r.task = t
    · simp [firstMatch, h] at hfm
    · simp [firstMatch, h] at hfm
      simp [updateTaskGo, h, ih (idx + 1) hfm]

theorem updateTaskGo_found (t : String) (dd st : Option String)
    (sheet : Store) :
    ∀ (l : List Row) (idx i : Nat), firstMatch t l = some i →
      updateTaskGo t dd st sheet idx l = applyMatch t dd st sheet (idx + i) := by
  intro l
  induction l with
  | nil => intro idx i h; exact absurd h (by simp [firstMatch])
  | cons r rest ih =>
    intro idx i hfm
    by_cases h : r.task = t
    · simp [firstMatch, h] at hfm
      subst hfm
      simp [updateTaskGo, h, applyMatch]
    · simp [firstMatch, h] at hfm
      obtain ⟨k, hk, rfl⟩ := hfm
      have hstep : updateTaskGo t dd st sheet idx (r :: rest)
          = updateTaskGo t dd st sheet (idx + 1) rest := by
        simp [updateTaskGo, h]
      rw [hstep, ih (idx + 1) k hk]
      congr 1
      omega

theorem update_task_notFound (t : String) (dd st : Option String) (s : Store)
    (h : firstMatch t s = none) :
    update_task t dd st s = (notFoundMsg t, s) :=
  updateTaskGo_notFound t dd st s s 2 h

theorem update_task_found (t : String) (dd st : Option String) (s : Store)
    (i : Nat) (h : firstMatch t s = some i) :
    update_task t dd st s = applyMatch t dd st s (2 + i) :=
  updateTaskGo_found t dd st s s 2 i h

theorem truthy_some_true (v : String) (hv : v ≠ "") : truthy (some v) = true := by
  have hne : v.isEmpty = false := by
    cases he : v.isEmpty
    · rfl
    · exact absurd ((String.isEmpty_iff v).mp (by rw [he])) hv
  simp [truthy, hne]

theorem truthy_empty_false : truthy (some "") = false := by decide

theorem truthy_none_false : truthy none = false := rfl

theorem applyMatch_invalid_date (t : String) (dd st : Option String)
    (sheet : Store) (idx : Nat) (h1 : truthy dd = true)
    (h2 : strptimeYMD (dd.getD "") = false) :
    applyMatch t dd st sheet idx = (dateFormatError, sheet) := by
  simp [applyMatch, h1, h2]

theorem applyMatch_status_only (t v : String) (sheet : Store) (idx : Nat)
    (hv : v ≠ "") :
    applyMatch t none (some v) sheet idx =
      (updatedMsg t, update_cell sheet idx 3 v) := by
  unfold applyMatch
  rw [truthy_some_true v hv]
  simp [truthy]

theorem applyMatch_length (t : String) (dd st : Option String) (sheet : Store)
    (idx : Nat) : (applyMatch t dd st sheet idx).2.length = sheet.length := by
  unfold applyMatch
  cases h1 : truthy dd <;> cases h2 : truthy st <;>
    cases h3 : strptimeYMD (dd.getD "") <;>
      simp [h1, h2, h3, update_cell_length]

theorem applyMatch_frame (t : String) (dd st : Option String) (sheet : Store)
    (idx j : Nat) (hj : j ≠ idx - 2) :
    (applyMatch t dd st sheet idx).2[j]? = sheet[j]? := by
  unfold applyMatch
  cases h1 : truthy dd <;> cases h2 : truthy st <;>
    cases h3 : strptimeYMD (dd.getD "") <;>
      simp [h1, h2, h3, update_cell_getElem_ne _ idx _ _ _ hj]

/-! ### The claims -/

/-- C1 (counterexample): the claim quantifies over every string not in the
zero-padded `YYYY-MM-DD` shape, but the strptime pattern also accepts
single-digit months and days: on `"2025-6-5"`, which is not in `YYYY-MM-DD`
shape, `create_task` does not return the error string and does append a
row. -/
theorem C1_counterexample :
    specFormatYYYYMMDD "2025-6-5" = false ∧
    ¬ ((create_task "Search papers" "2025-6-5" "pending" []).1 =
          dateFormatError ∧
        get_tasks (create_task "Search papers" "2025-6-5" "pending" []).2 =
          get_tasks ([] : Store)) := by
  constructor
  · decide
  · decide

/-- C1 (amended): for every task `t`, every status `st`, every store `s`
and every string `d` that the `%Y-%m-%d` parser rejects, `create_task`
returns exactly the error string `"Error: due_date must be in YYYY-MM-DD
format."` and appends no row, so `get_tasks` is unchanged.  (The parser is
laxer than the literal `YYYY-MM-DD` shape: it also accepts single-digit
months and days.) -/
theorem C1_create_task_rejects_unparsable (t d st : String) (s : Store)
    (h : strptimeYMD d = false) :
    create_task t d st s = (dateFormatError, s) ∧
    get_tasks (create_task t d st s).2 = get_tasks s := by
  constructor
  · simp [create_task, h]
  · simp [create_task, h]

/-- Witness for C1: the rejection theorem applied at `"2025/06/05"`. -/
theorem C1_witness :
    strptimeYMD "2025/06/05" = false ∧
    create_task "Search papers" "2025/06/05" "pending" [] =
      (dateFormatError, ([] : Store)) ∧
    get_tasks (create_task "Search papers" "2025/06/05" "pending" []).2 =
      get_tasks ([] : Store) := by
  have h := C1_create_task_rejects_unparsable "Search papers" "2025/06/05"
    "pending" [] (by decide)
  exact ⟨by decide, h.1, h.2⟩

/-- C2: on a store holding a row whose task equals `t`, `update_task` with
a supplied (non-empty) due date that the date parser rejects and a
non-empty status returns the date-format error string and writes no cell
at all: the store is returned unchanged. -/
theorem C2_update_invalid_date_all_or_nothing (t d v : String) (s : Store)
    (hmem : ∃ r ∈ s, r.task = t) (hd : d ≠ "") (hv : v ≠ "")
    (hinv : strptimeYMD d = false) :
    update_task t (some d) (some v) s = (dateFormatError, s) := by
  obtain ⟨i, hfm⟩ := firstMatch_isSome t s hmem
  rw [update_task_found t (some d) (some v) s i hfm]
  exact applyMatch_invalid_date t (some d) (some v) s (2 + i)
    (truthy_some_true d hd) hinv

/-- Witness for C2: an existing task, an invalid date and a valid status:
the error string comes back and both cells stay. -/
theorem C2_witness :
    update_task "Write abstract" (some "2025/06/05") (some "done")
        [⟨"Write abstract", "2025-06-05", "pending"⟩] =
      (dateFormatError, [⟨"Write abstract", "2025-06-05", "pending"⟩]) :=
  C2_update_invalid_date_all_or_nothing "Write abstract" "2025/06/05" "done"
    [⟨"Write abstract", "2025-06-05", "pending"⟩]
    ⟨⟨"Write abstract", "2025-06-05", "pending"⟩, by simp, rfl⟩
    (by decide) (by decide) (by decide)

/-- C3: when no row's task column equals the description, `update_task`
returns exactly the not-found string and performs no writes, whatever the
optional arguments are (including an invalid due date). -/
theorem C3_update_task_not_found (t : String) (dd st : Option String)
    (s : Store) (h : ∀ r ∈ s, r.task ≠ t) :
    update_task t dd st s = (notFoundMsg t, s) :=
  update_task_notFound t dd st s ((firstMatch_none_iff t s).mpr h)

/-- Witness for C3: a store without the description, called with an
invalid due date and a status. -/
theorem C3_witness :
    update_task "missing" (some "not-a-date") (some "done")
        [⟨"Search papers", "2025-06-10", "pending"⟩] =
      (notFoundMsg "missing", [⟨"Search papers", "2025-06-10", "pending"⟩]) :=
  C3_update_task_not_found "missing" (some "not-a-date") (some "done")
    [⟨"Search papers", "2025-06-10", "pending"⟩] (by decide)

/-- C4: for every valid date string, `create_task` with the default
status appends exactly the row `[t, d, "pending"]` at the end of the
store, returns the success message built from the three field values, and
the new record shows up in `get_tasks`. -/
theorem C4_create_task_valid_appends (t d : String) (s : Store)
    (h : strptimeYMD d = true) :
    create_task t d "pending" s =
      (addedMsg t d "pending", s ++ [⟨t, d, "pending"⟩]) ∧
    Row.mk t d "pending" ∈ get_tasks (create_task t d "pending" s).2 := by
  constructor
  · simp [create_task, h, append_row]
  · simp [create_task, h, append_row, get_tasks, get_all_records]

/-- Witness for C4: the scenario of the spec, on the empty store. -/
theorem C4_witness :
    strptimeYMD "2025-06-05" = true ∧
    create_task "Write abstract" "2025-06-05" "pending" [] =
      (addedMsg "Write abstract" "2025-06-05" "pending",
        [⟨"Write abstract", "2025-06-05", "pending"⟩]) ∧
    Row.mk "Write abstract" "2025-06-05" "pending" ∈
      get_tasks (create_task "Write abstract" "2025-06-05" "pending" []).2 := by
  have h := C4_create_task_valid_appends "Write abstract" "2025-06-05" []
    (by decide)
  exact ⟨by decide, h.1, h.2⟩

/-- C5: when the scan finds its first match at data position `i`, that row
matches, no earlier row matches (matching is exact string equality of the
task column), and every other data row — in particular every later
duplicate — is unchanged by `update_task`. -/
theorem C5_first_match_wins (t : String) (dd st : Option String) (s : Store)
    (i : Nat) (hfm : firstMatch t s = some i) :
    (∃ r, s[i]? = some r ∧ r.task = t) ∧
    (∀ j, j < i → ∀ r, s[j]? = some r → r.task ≠ t) ∧
    (∀ j, j ≠ i → (update_task t dd st s).2[j]? = s[j]?) := by
  obtain ⟨hex, hmin⟩ := firstMatch_spec t s i hfm
  refine ⟨hex, hmin, ?_⟩
  intro j hj
  rw [update_task_found t dd st s i hfm]
  exact applyMatch_frame t dd st s (2 + i) j (by omega)

/-- Witness for C5: two rows with the same description; updating the
status leaves the second (duplicate) row untouched. -/
theorem C5_witness :
    (update_task "dup" none (some "started")
        [⟨"dup", "2025-01-01", "pending"⟩, ⟨"dup", "2025-02-02", "done"⟩]).2[1]? =
      some ⟨"dup", "2025-02-02", "done"⟩ := by
  have h := C5_first_match_wins "dup" none (some "started")
    [⟨"dup", "2025-01-01", "pending"⟩, ⟨"dup", "2025-02-02", "done"⟩] 0
    (by decide)
  rw [h.2.2 1 (by decide)]
  rfl

/-- C6: on an existing task, `update_task` with neither optional argument
supplied returns the success message and leaves the store exactly as it
was (no-op success). -/
theorem C6_update_task_noop_success (t : String) (s : Store)
    (h : ∃ r ∈ s, r.task = t) :
    update_task t none none s = (updatedMsg t, s) := by
  obtain ⟨i, hfm⟩ := firstMatch_isSome t s h
  rw [update_task_found t none none s i hfm]
  rfl

/-- Witness for C6: the no-op update on a one-row store. -/
theorem C6_witness :
    update_task "Search papers" none none
        [⟨"Search papers", "2025-06-10", "pending"⟩] =
      (updatedMsg "Search papers",
        [⟨"Search papers", "2025-06-10", "pending"⟩]) :=
  C6_update_task_noop_success "Search papers"
    [⟨"Search papers", "2025-06-10", "pending"⟩] (by decide)

/-- C7: a successful status-only update writes exactly one cell: the
status of the first matched row becomes the new value while its task and
due date columns, every other row, and the row count are untouched. -/
theorem C7_status_update_targets_one_cell (t v : String) (s : Store)
    (i : Nat) (hv : v ≠ "") (hfm : firstMatch t s = some i) :
    (update_task t none (some v) s).1 = updatedMsg t ∧
    (update_task t none (some v) s).2.length = s.length ∧
    (∀ j, j ≠ i → (update_task t none (some v) s).2[j]? = s[j]?) ∧
    ((update_task t none (some v) s).2[i]?).map Row.task =
      (s[i]?).map Row.task ∧
    ((update_task t none (some v) s).2[i]?).map Row.due_date =
      (s[i]?).map Row.due_date ∧
    ((update_task t none (some v) s).2[i]?).map Row.status =
      (s[i]?).map (fun _ => v) := by
  rw [update_task_found t none (some v) s i hfm,
    applyMatch_status_only t v s (2 + i) hv]
  have hidx : (2 + i) - 2 = i := by omega
  have hg := update_cell_getElem_self s (2 + i) 3 v
  rw [hidx] at hg
  refine ⟨rfl, update_cell_length s (2 + i) 3 v, ?_, ?_, ?_, ?_⟩
  · intro j hj
    exact update_cell_getElem_ne s (2 + i) 3 v j (by omega)
  all_goals
    rw [show ((updatedMsg t, update_cell s (2 + i) 3 v)).2 =
      update_cell s (2 + i) 3 v from rfl, hg]
    cases s[i]? <;> simp [setCol]

/-- Witness for C7: the scenario of the spec: updating the status of
`"Write abstract"` to `"completed"` keeps the due date. -/
theorem C7_witness :
    (update_task "Write abstract" none (some "completed")
        [⟨"Write abstract", "2025-06-05", "pending"⟩]).1 =
      updatedMsg "Write abstract" ∧
    ((update_task "Write abstract" none (some "completed")
        [⟨"Write abstract", "2025-06-05", "pending"⟩]).2[0]?).map
      Row.due_date = some "2025-06-05" ∧
    ((update_task "Write abstract" none (some "completed")
        [⟨"Write abstract", "2025-06-05", "pending"⟩]).2[0]?).map
      Row.status = some "completed" := by
  have h := C7_status_update_targets_one_cell "Write abstract" "completed"
    [⟨"Write abstract", "2025-06-05", "pending"⟩] 0 (by decide) (by decide)
  refine ⟨h.1, ?_, ?_⟩
  · rw [h.2.2.2.2.1]; rfl
  · rw [h.2.2.2.2.2]; rfl

/-- C8: no operation removes a row: `get_tasks` reads only, `update_task`
keeps the row count, and `create_task` keeps it or grows it by exactly
one, so the count never decreases over any sequence of calls. -/
theorem C8_no_row_ever_removed (t d v : String) (dd st : Option String)
    (s : Store) :
    (get_tasks s).length = s.length ∧
    ((create_task t d v s).2.length = s.length ∨
      (create_task t d v s).2.length = s.length + 1) ∧
    (update_task t dd st s).2.length = s.length := by
  refine ⟨rfl, ?_, ?_⟩
  · cases h : strptimeYMD d with
    | false => left; simp [create_task, h]
    | true => right; simp [create_task, h, append_row]
  · cases hfm : firstMatch t s with
    | none => rw [update_task_notFound t dd st s hfm]
    | some i =>
      rw [update_task_found t dd st s i hfm]
      exact applyMatch_length t dd st s (2 + i)

/-- C9: the empty string is falsy in Python, so `update_task` treats
`due_date=""` exactly like an absent due date (no validation, no write)
and `status=""` exactly like an absent status; with both empty and a
matching row it is a pure no-op that returns the success message. -/
theorem C9_empty_string_arguments_are_absent (t : String)
    (dd st : Option String) (s : Store) :
    update_task t (some "") st s = update_task t none st s ∧
    update_task t dd (some "") s = update_task t dd none s ∧
    ((∃ r ∈ s, r.task = t) →
      update_task t (some "") (some "") s = (updatedMsg t, s)) := by
  refine ⟨?_, ?_, ?_⟩
  · cases hfm : firstMatch t s with
    | none =>
      rw [update_task_notFound t (some "") st s hfm,
        update_task_notFound t none st s hfm]
    | some i =>
      rw [update_task_found t (some "") st s i hfm,
        update_task_found t none st s i hfm]
      simp [applyMatch, truthy_empty_false, truthy_none_false]
  · cases hfm : firstMatch t s with
    | none =>
      rw [update_task_notFound t dd (some "") s hfm,
        update_task_notFound t dd none s hfm]
    | some i =>
      rw [update_task_found t dd (some "") s i hfm,
        update_task_found t dd none s i hfm]
      simp [applyMatch, truthy_empty_false, truthy_none_false]
  · intro h
    obtain ⟨i, hfm⟩ := firstMatch_isSome t s h
    rw [update_task_found t (some "") (some "") s i hfm]
    simp [applyMatch, truthy_empty_false]

/-- Witness for C9: both optional arguments empty on an existing task. -/
theorem C9_witness :
    update_task "Search papers" (some "") (some "")
        [⟨"Search papers", "2025-06-10", "pending"⟩] =
      (updatedMsg "Search papers",
        [⟨"Search papers", "2025-06-10", "pending"⟩]) :=
  (C9_empty_string_arguments_are_absent "Search papers" (some "") (some "")
    [⟨"Search papers", "2025-06-10", "pending"⟩]).2.2 (by decide)

/-- C10: the three tools are deterministic: equal arguments and equal
store states give equal results and equal final stores. -/
theorem C10_operations_deterministic (t1 t2 d1 d2 v1 v2 : String)
    (dd1 dd2 st1 st2 : Option String) (s1 s2 : Store)
    (hs : s1 = s2) (ht : t1 = t2) (hd : d1 = d2) (hv : v1 = v2)
    (hdd : dd1 = dd2) (hst : st1 = st2) :
    get_tasks s1 = get_tasks s2 ∧
    create_task t1 d1 v1 s1 = create_task t2 d2 v2 s2 ∧
    update_task t1 dd1 st1 s1 = update_task t2 dd2 st2 s2 := by
  subst hs; subst ht; subst hd; subst hv; subst hdd; subst hst
  exact ⟨rfl, rfl, rfl⟩

/-- Witness for C10: determinism at one concrete call. -/
theorem C10_witness :
    get_tasks ([] : Store) = get_tasks ([] : Store) ∧
    create_task "t" "2025-06-05" "pending" [] =
      create_task "t" "2025-06-05" "pending" [] ∧
    update_task "t" none none [] = update_task "t" none none [] :=
  C10_operations_deterministic "t" "t" "2025-06-05" "2025-06-05" "pending"
    "pending" none none none none [] [] rfl rfl rfl rfl rfl rfl
